import Mathlib

/-!
Verification development for the Ambassador CLI core
(`ambassador/ambassador/cli.py`): the resource-ingestion layer
(`ResourceFetcher` with its `load_yaml` / `extract_k8s` methods) and the
pipeline orchestration of the `config` command (check mode, validation-error
policy, output writing).  Python values coming out of `yaml.safe_load_all`
are modelled by the inductive `YDoc`; Python attribute errors and the other
exceptions the code can raise are modelled by `PyErr` and `Except`.
External collaborators (`Config`, `IR`, `V1Config`, `RichStatus`,
`ACResource.from_dict`, the YAML parser, the filesystem) are not part of the
supplied source; they enter as explicit parameters or are modelled from the
spec where noted.
-/

/-- Value of one parsed YAML document, as produced by `yaml.safe_load_all`:
`None`, booleans, numbers, strings, mappings and sequences. -/
inductive YDoc where
  | nil
  | bool (b : Bool)
  | num (n : Int)
  | str (s : String)
  | map (entries : List (String × YDoc))
  | seq (items : List YDoc)

/-- Python exceptions that the modelled code can raise. -/
inductive PyErr where
  | attributeError
  | typeError
  | yamlError
deriving DecidableEq

/-- Message used when an exception is reported by the top-level handler. -/
def pyErrMsg : PyErr → String
  | .attributeError => "AttributeError"
  | .typeError => "TypeError"
  | .yamlError => "YAMLError"

/-- Python truthiness of a `YDoc` value (`if not x` tests). -/
def truthy : YDoc → Bool
  | .nil => false
  | .bool b => b
  | .num n => n != 0
  | .str s => s != ""
  | .map m => !m.isEmpty
  | .seq l => !l.isEmpty

/-- Python equality between a `YDoc` value and a string literal
(`obj.get('kind') != "Service"`): true only for the equal string. -/
def yEqStr : YDoc → String → Bool
  | .str s, t => s == t
  | _, _ => false

/-- Python `str()` coercion used by `'\x7bname\x7d.\x7bnamespace\x7d'.format(...)`.
Composite values would render via Python repr; that rendering is abbreviated
here since no claim exercises a non-scalar name or namespace. -/
def pyStr : YDoc → String
  | .nil => "None"
  | .bool b => if b then "True" else "False"
  | .num n => toString n
  | .str s => s
  | .map _ => "<mapping>"
  | .seq _ => "<sequence>"

/-- Python `value.get(key, default)`: a mapping looks the key up (first hit;
YAML mappings have unique keys), any non-mapping raises `AttributeError`. -/
def pyGet (v : YDoc) (key : String) (dflt : YDoc) : Except PyErr YDoc :=
  match v with
  | .map m => pure ((m.lookup key).getD dflt)
  | _ => throw PyErr.attributeError

/-- Python truthiness of an `Optional[str]` variable (`if not rkey`). -/
def optStrTruthy : Option String → Bool
  | none => false
  | some s => s != ""

/-- Python `"%s"` formatting of an `Optional[str]` (`None` prints as "None"). -/
def fmtOptStr : Option String → String
  | none => "None"
  | some s => s

/-- Modelled from the spec: the canonical resource unit
`\x7bkey, sourceName, rawDocument\x7d` (§3).  `ACResource.from_dict` lives in the
external `ambassador.config` module; per the spec it packages the resource
key, the location, the originating serialization and the raw document. -/
structure ACResource where
  rkey : String
  location : String
  serialization : String
  value : YDoc

/-- Modelled from the spec: constructor used at `cli.py` line 147 as
`ACResource.from_dict(rkey, rkey, serialization, obj)`. -/
def ACResource.from_dict (rkey location : String) (serialization : String)
    (obj : YDoc) : ACResource :=
  ⟨rkey, location, serialization, obj⟩

/-- Mutable state of a `ResourceFetcher` instance: the accumulated resource
list plus the `self.filename` / `self.ocount` fields (`self.filepath` is only
used in log messages and is not modelled). -/
@[ext]
structure FetcherState where
  resources : List ACResource
  filename : Option String
  ocount : Nat

/-- Flat-mode body of `ResourceFetcher.load_yaml` (lines 140-151 with
`k8s=False`), iterating over the already-parsed documents.  `rkey` is the
local Python variable: it is (re)computed only when falsy and the computed
value persists across loop iterations. -/
def processFlat (serialization : String) :
    List YDoc → Option String → FetcherState → FetcherState
  | [], _, st => st
  | obj :: rest, rkey, st =>
    let rkey := if optStrTruthy rkey then rkey
                else some (fmtOptStr st.filename ++ "." ++ toString st.ocount)
    let r := ACResource.from_dict (rkey.getD "") (rkey.getD "") serialization obj
    processFlat serialization rest rkey
      { st with resources := st.resources ++ [r], ocount := st.ocount + 1 }

/-- `ResourceFetcher.load_yaml` restricted to `k8s=False` (its default): parse
the serialization, then run the flat loop.  A parse failure raises. -/
def load_yaml_flat (parse : String → Option (List YDoc)) (serialization : String)
    (rkey : Option String) (st : FetcherState) : Except PyErr FetcherState :=
  match parse serialization with
  | none => throw PyErr.yamlError
  | some objs => pure (processFlat serialization objs rkey st)

/-- `ResourceFetcher.extract_k8s` (lines 153-191).  Documents that are not
mappings raise `AttributeError` at the first `.get`.  Non-`Service` kinds,
falsy metadata, falsy names and missing/falsy annotations are silently
discarded.  Otherwise `self.filename` gains the `":annotation"` suffix and
the annotation string is re-parsed by `self.load_yaml(annotations,
rkey=resource_identifier)` — `k8s` defaulting to `False`, i.e.
`load_yaml_flat`. -/
def extract_k8s (parse : String → Option (List YDoc)) (serialization : String)
    (obj : YDoc) (st : FetcherState) : Except PyErr FetcherState := do
  let kind ← pyGet obj "kind" .nil
  if !(yEqStr kind "Service") then
    return st
  let metadata ← pyGet obj "metadata" .nil
  if !(truthy metadata) then
    return st
  let resource_name ← pyGet metadata "name" .nil
  if !(truthy resource_name) then
    return st
  let resource_namespace ← pyGet metadata "namespace" (.str "default")
  let resource_identifier := pyStr resource_name ++ "." ++ pyStr resource_namespace
  let anns ← pyGet metadata "annotations" .nil
  let anns ← if truthy anns then pyGet anns "getambassador.io/config" .nil
             else pure anns
  if !(truthy anns) then
    return st
  let fn ← match st.filename with
    | some s => pure (s ++ ":annotation")
    | none => throw PyErr.typeError
  match anns with
  | .str s =>
      load_yaml_flat parse s (some resource_identifier) { st with filename := some fn }
  | _ => throw PyErr.attributeError

/-- Kubernetes-mode body of `ResourceFetcher.load_yaml` (lines 140-151 with
`k8s=True`): call `extract_k8s` per document, bumping `self.ocount` after
each one. -/
def processK8s (parse : String → Option (List YDoc)) (serialization : String) :
    List YDoc → FetcherState → Except PyErr FetcherState
  | [], st => pure st
  | obj :: rest, st => do
    let st' ← extract_k8s parse serialization obj st
    processK8s parse serialization rest { st' with ocount := st'.ocount + 1 }

/-- `ResourceFetcher.load_yaml` (lines 137-151): parse, then dispatch on the
`k8s` flag. -/
def load_yaml (parse : String → Option (List YDoc)) (serialization : String)
    (rkey : Option String) (k8s : Bool) (st : FetcherState) :
    Except PyErr FetcherState :=
  match parse serialization with
  | none => throw PyErr.yamlError
  | some objs =>
    if k8s then processK8s parse serialization objs st
    else pure (processFlat serialization objs rkey st)

/-- One directory entry as seen by `os.listdir`: its basename, whether
`os.path.isfile` holds for it, and its readable content. -/
structure FileEntry where
  name : String
  isFile : Bool
  content : String

/-- Body of `ResourceFetcher.__init__` (lines 115-135): walk the listing in
order, skip non-regular files, and for each regular file set
`filename`/`ocount`, load it, and reset the fields. -/
def fetchFiles (parse : String → Option (List YDoc)) (k8s : Bool) :
    List FileEntry → FetcherState → Except PyErr FetcherState
  | [], st => pure st
  | e :: rest, st =>
    if e.isFile then do
      let st' ← load_yaml parse e.content none k8s
        { st with filename := some e.name, ocount := 1 }
      fetchFiles parse k8s rest { st' with filename := none, ocount := 0 }
    else
      fetchFiles parse k8s rest st

/-- `fetch_resources` (lines 196-198): run the fetcher on a directory listing
and expose the accumulated resource sequence. -/
def fetch_resources (parse : String → Option (List YDoc))
    (entries : List FileEntry) (k8s : Bool) : Except PyErr (List ACResource) := do
  let st ← fetchFiles parse k8s entries { resources := [], filename := none, ocount := 0 }
  pure st.resources

/-- Modelled from the spec: the `RichStatus` Result/Status wrapper of the
external `ambassador.utils` module (§4.4): `Ok(message?)` or
`Error(message)`, with boolean truthiness equal to "is this a success". -/
inductive RichStatus where
  | OK (msg : Option String)
  | Error (msg : String)

/-- Modelled from the spec: the `RichStatus.fromError` constructor. -/
def RichStatus.fromError (msg : String) : RichStatus := .Error msg

/-- Modelled from the spec: truthiness of a `RichStatus` (`if rc:`). -/
def RichStatus.truthy : RichStatus → Bool
  | .OK _ => true
  | .Error _ => false

/-- Outcome of the check-mode freshness probe
`json.loads(open(output_json_path, "r").read())` at `cli.py` line 290: it
succeeds; or it raises one of the three exception classes caught at lines
291-299 (`FileNotFoundError`, `OSError`, `json.decoder.JSONDecodeError`);
or it raises an exception caught by none of those clauses —
`unicodeDecodeError` stands for the concrete realizable case, the
`UnicodeDecodeError` raised by `.read()` on a present file whose bytes are
not valid UTF-8: it is a `ValueError` but neither an `OSError` nor a
`JSONDecodeError`, so it escapes the probe's `except` clauses. -/
inductive ProbeResult where
  | ok
  | fileNotFound
  | osError
  | jsonDecodeError
  | unicodeDecodeError
deriving DecidableEq

/-- Test whether the probe outcome is an exception that none of the three
`except` clauses at `cli.py` lines 291-299 catches. -/
def ProbeResult.uncaught : ProbeResult → Bool
  | .unicodeDecodeError => true
  | _ => false

/-- Calls made by `config` into the fetcher and the downstream pipeline
stages (`fetch_resources`, `Config.load_all`, `IR`, `V1Config`). -/
inductive Stage where
  | fetchS
  | aconfS
  | irS
  | v1S
deriving DecidableEq

/-- Behaviour of the external collaborators as a function of the fetched
resource sequence: the validated-config error ledger (`aconf.errors`, an
association of resource key to its recorded error messages) and the JSON
serializations of the three pipeline artifacts. -/
structure Collab where
  errors : List ACResource → List (String × List String)
  aconf_json : List ACResource → String
  ir_json : List ACResource → String
  v1_json : List ACResource → String

/-- Observable outcome of one `config` invocation: process exit status, the
file writes performed (path, content) in order, the pipeline stages invoked,
and the message of the fatal exception when one was caught. -/
structure ConfigOutcome where
  exitCode : Nat
  writes : List (String × String)
  stages : List Stage
  fatalMsg : Option String

/-- The `config` command (`cli.py` lines 258-346).  `check` gates the
freshness probe; a successful probe short-circuits everything; a probe
exception outside the three caught classes (a `UnicodeDecodeError` from a
present non-UTF-8 output file) escapes the check block and reaches the
top-level handler: exit status 1 before any pipeline stage runs.  Otherwise
the regeneration path fetches resources (a raised `PyErr` reaches the
top-level handler: exit status 1), optionally dumps the validated config,
aborts with `"errors in: <keys>"` when `exit_on_error` is set and the error
ledger is non-empty, optionally dumps the IR, builds the wire format, sets
`rc = RichStatus.OK(msg="huh")` over the initial
`RichStatus.fromError("impossible error")`, and writes the output when `rc`
is truthy. -/
def config_run (check k8s exit_on_error : Bool) (aconf ir : Option String)
    (probe : ProbeResult) (parse : String → Option (List YDoc))
    (entries : List FileEntry) (collab : Collab) (output_json_path : String) :
    ConfigOutcome :=
  if check && probe.uncaught then
    { exitCode := 1, writes := [], stages := [], fatalMsg := some "UnicodeDecodeError" }
  else
  let output_exists := if check then (match probe with | .ok => true | _ => false)
                       else false
  let rc := RichStatus.fromError "impossible error"
  if output_exists then
    { exitCode := 0, writes := [], stages := [], fatalMsg := none }
  else
    match fetch_resources parse entries k8s with
    | .error e =>
        { exitCode := 1, writes := [], stages := [.fetchS], fatalMsg := some (pyErrMsg e) }
    | .ok resources =>
        let writes0 : List (String × String) :=
          match aconf with
          | some pa => [(pa, collab.aconf_json resources ++ "\n")]
          | none => []
        if exit_on_error && !(collab.errors resources).isEmpty then
          { exitCode := 1, writes := writes0, stages := [.fetchS, .aconfS],
            fatalMsg := some ("errors in: " ++
              String.intercalate ", " ((collab.errors resources).map Prod.fst)) }
        else
          let writes1 := writes0 ++
            (match ir with
             | some pi => [(pi, collab.ir_json resources ++ "\n")]
             | none => [])
          let rc := RichStatus.OK (some "huh")
          let writes2 := if rc.truthy then
              writes1 ++ [(output_json_path, collab.v1_json resources ++ "\n")]
            else writes1
          { exitCode := 0, writes := writes2, stages := [.fetchS, .aconfS, .irS, .v1S],
            fatalMsg := none }

/-- Resources produced from one flat-mode file, as the code actually keys
them: the key is computed once from `(filename, ocount=1)` and reused for
every document of the file. -/
def flatFileResources (e : FileEntry) (ds : List YDoc) : List ACResource :=
  ds.map (fun d => ACResource.from_dict (e.name ++ ".1") (e.name ++ ".1") e.content d)

/-! ## Sample inputs used by concrete evaluations -/

/-- Parser behaviour: every blob parses to the same two documents. -/
def twoDocParse : String → Option (List YDoc) :=
  fun _ => some [YDoc.str "a", YDoc.str "b"]

/-- Parser behaviour: every blob parses to one empty YAML document (`None`). -/
def nilDocParse : String → Option (List YDoc) := fun _ => some [YDoc.nil]

/-- Directory listing with two regular files and one subdirectory entry. -/
def sampleEntries : List FileEntry :=
  [⟨"a", true, "ca"⟩, ⟨"d", false, "cd"⟩, ⟨"b", true, "cb"⟩]

/-- One-file directory listing. -/
def oneFileEntries : List FileEntry := [⟨"f", true, "t"⟩]

/-- First document carried by the sample annotation. -/
def annDoc1 : YDoc := .map [("x", .num 1)]

/-- Second document carried by the sample annotation. -/
def annDoc2 : YDoc := .map [("y", .num 2)]

/-- Kubernetes `Service` object named `svc1` in namespace `ns1` carrying the
Ambassador configuration annotation `"ann"`. -/
def svcSample : YDoc :=
  .map [("kind", .str "Service"),
        ("metadata", .map [("name", .str "svc1"), ("namespace", .str "ns1"),
          ("annotations", .map [("getambassador.io/config", .str "ann")])])]

/-- Kubernetes `Service` object named `svc1` with no namespace field,
carrying the annotation `"ann"`. -/
def svcSampleNoNs : YDoc :=
  .map [("kind", .str "Service"),
        ("metadata", .map [("name", .str "svc1"),
          ("annotations", .map [("getambassador.io/config", .str "ann")])])]

/-- Parser behaviour: the annotation blob `"ann"` holds two plain documents,
the file blob `"withns"` holds the namespaced Service, anything else holds
the namespace-less Service. -/
def annParse : String → Option (List YDoc) :=
  fun s =>
    if s == "ann" then some [annDoc1, annDoc2]
    else if s == "withns" then some [svcSample]
    else some [svcSampleNoNs]

/-- Parser behaviour: the annotation blob `"ann"` itself holds a Kubernetes
`Service` object (with its own annotation), anything else holds the
namespaced Service. -/
def annSvcParse : String → Option (List YDoc) :=
  fun s => if s == "ann" then some [svcSampleNoNs] else some [svcSample]

/-- Collaborator behaviour with an empty error ledger. -/
def collabOkBehaviour : Collab :=
  ⟨fun _ => [], fun _ => "ACONF", fun _ => "IR", fun _ => "V1"⟩

/-- Collaborator behaviour whose validation stage records one error for the
resource key `k1` and one for `k2`. -/
def collabErrBehaviour : Collab :=
  ⟨fun _ => [("k1", ["bad mapping"]), ("k2", ["bad module"])],
   fun _ => "ACONF", fun _ => "IR", fun _ => "V1"⟩

/-! ## Helper lemmas about the flat-mode loop -/

theorem dot_append_ne_empty (a b : String) : a ++ "." ++ b ≠ "" := by
  intro h
  have hl := congrArg String.length h
  have h1 : ("." : String).length = 1 := by decide
  have h0 : ("" : String).length = 0 := by decide
  rw [String.length_append, String.length_append, h1, h0] at hl
  omega

theorem processFlat_truthy (ser : String) (ds : List YDoc) (k : String) (hk : k ≠ "")
    (st : FetcherState) :
    processFlat ser ds (some k) st =
      { st with
          resources := st.resources ++ ds.map (fun d => ACResource.from_dict k k ser d),
          ocount := st.ocount + ds.length } := by
  induction ds generalizing st with
  | nil => ext1 <;> simp [processFlat]
  | cons d rest ih =>
    have hk' : optStrTruthy (some k) = true := by simp [optStrTruthy, hk]
    simp only [processFlat, hk', if_pos]
    rw [ih]
    ext1 <;> simp [List.append_assoc] <;> omega

theorem processFlat_fresh (ser : String) (ds : List YDoc) (st : FetcherState) :
    processFlat ser ds none st =
      { st with
          resources := st.resources ++ ds.map (fun d =>
            ACResource.from_dict (fmtOptStr st.filename ++ "." ++ toString st.ocount)
              (fmtOptStr st.filename ++ "." ++ toString st.ocount) ser d),
          ocount := st.ocount + ds.length } := by
  cases ds with
  | nil => ext1 <;> simp [processFlat]
  | cons d rest =>
    have h1 : processFlat ser (d :: rest) none st =
        processFlat ser rest
          (some (fmtOptStr st.filename ++ "." ++ toString st.ocount))
          { st with
              resources := st.resources ++
                [ACResource.from_dict
                  (fmtOptStr st.filename ++ "." ++ toString st.ocount)
                  (fmtOptStr st.filename ++ "." ++ toString st.ocount) ser d],
              ocount := st.ocount + 1 } := rfl
    rw [h1, processFlat_truthy _ _ _ (dot_append_ne_empty _ _)]
    ext1 <;> simp [List.append_assoc] <;> omega

theorem flatKey_eq (a : String) : a ++ "." ++ toString (1 : Nat) = a ++ ".1" := by
  have h1 : ("." : String) ++ toString (1 : Nat) = ".1" := by decide
  rw [String.append_assoc, h1]

theorem load_yaml_k8s_false (parse : String → Option (List YDoc))
    (serialization : String) (rkey : Option String) (st : FetcherState) :
    load_yaml parse serialization rkey false st =
      load_yaml_flat parse serialization rkey st := by
  unfold load_yaml load_yaml_flat
  cases parse serialization <;> simp

theorem fetchFiles_flat (parse : String → Option (List YDoc))
    (docs : FileEntry → List YDoc) (entries : List FileEntry)
    (h : ∀ e ∈ entries, e.isFile = true → parse e.content = some (docs e))
    (st : FetcherState) (hfn : st.filename = none) (hoc : st.ocount = 0) :
    fetchFiles parse false entries st =
      Except.ok { st with
        resources := st.resources ++
          (entries.filter (fun e => e.isFile)).flatMap
            (fun e => flatFileResources e (docs e)) } := by
  induction entries generalizing st with
  | nil =>
    simp only [fetchFiles, List.filter_nil, List.flatMap_nil, List.append_nil]
    rfl
  | cons e rest ih =>
    have hrest : ∀ x ∈ rest, x.isFile = true → parse x.content = some (docs x) :=
      fun x hx => h x (List.mem_cons_of_mem _ hx)
    by_cases hf : e.isFile = true
    · have hpc := h e (List.mem_cons_self _ _) hf
      simp only [fetchFiles, hf, if_pos, load_yaml_k8s_false, load_yaml_flat, hpc]
      rw [processFlat_fresh]
      simp only [fmtOptStr, Bind.bind, Except.bind, Pure.pure, Except.pure]
      rw [ih hrest _ rfl rfl]
      refine congrArg Except.ok ?_
      ext1 <;>
        simp [flatFileResources, flatKey_eq, hfn, hoc, List.append_assoc,
          List.filter_cons, hf]
    · have hf' : e.isFile = false := by simpa using hf
      simp [fetchFiles, hf', ih hrest st hfn hoc, List.filter_cons]

/-! ## Helper lemmas about Kubernetes-mode extraction -/

theorem extract_k8s_annotated (parse : String → Option (List YDoc))
    (ser a fnm : String) (m mm : List (String × YDoc)) (nameV nsV : YDoc)
    (ds : List YDoc) (st : FetcherState)
    (hk : m.lookup "kind" = some (.str "Service"))
    (hm : m.lookup "metadata" = some (.map mm))
    (hmm : mm.isEmpty = false)
    (hname : mm.lookup "name" = some nameV)
    (hnt : truthy nameV = true)
    (hns : (mm.lookup "namespace").getD (.str "default") = nsV)
    (hann : mm.lookup "annotations" =
      some (.map [("getambassador.io/config", .str a)]))
    (ha : a ≠ "")
    (hp : parse a = some ds)
    (hf : st.filename = some fnm) :
    extract_k8s parse ser (.map m) st =
      Except.ok { st with
        resources := st.resources ++ ds.map (fun d =>
          ACResource.from_dict (pyStr nameV ++ "." ++ pyStr nsV)
            (pyStr nameV ++ "." ++ pyStr nsV) a d),
        filename := some (fnm ++ ":annotation"),
        ocount := st.ocount + ds.length } := by
  have ha' : (a != "") = true := by simpa using ha
  have hyk : yEqStr (YDoc.str "Service") "Service" = true := by simp [yEqStr]
  have htm : truthy (YDoc.map mm) = true := by simp [truthy, hmm]
  have hta : truthy (YDoc.map [("getambassador.io/config", YDoc.str a)]) = true := by
    simp [truthy]
  have htsa : truthy (YDoc.str a) = true := by simpa [truthy] using ha'
  have hcfg : ([("getambassador.io/config", YDoc.str a)].lookup
      "getambassador.io/config") = some (YDoc.str a) := rfl
  unfold extract_k8s
  simp [pyGet, hk, hm, hname, hann, hns, hyk, htm, hnt, hta, htsa, hcfg, hf,
    Bind.bind, Except.bind, Pure.pure, Except.pure]
  simp only [load_yaml_flat, hp]
  rw [processFlat_truthy _ _ _ (dot_append_ne_empty _ _)]
  rfl

theorem fetch_single_k8s (parse : String → Option (List YDoc))
    (fname fcontent : String) (obj : YDoc) (res : FetcherState)
    (hc : parse fcontent = some [obj])
    (hex : extract_k8s parse fcontent obj
      { resources := [], filename := some fname, ocount := 1 } = Except.ok res) :
    fetch_resources parse [⟨fname, true, fcontent⟩] true = Except.ok res.resources := by
  unfold fetch_resources fetchFiles load_yaml
  simp only [hc, if_true, ite_true, processK8s, hex, Bind.bind, Except.bind,
    Pure.pure, Except.pure, fetchFiles]

/-! ## Claim theorems: resource fetching -/

/-- C1: the claim says that in flat mode each document of a file gets the key
`"<filename>.<ordinal>"` with the ordinal equal to its 1-based position, so a
two-document file `f` would yield keys `f.1` and `f.2`.  The code instead
computes `rkey` only when it is falsy and reuses it for every later document
of the same file, so both documents of `f` get the key `f.1` and the claimed
result is refuted at this input. -/
theorem c1_flat_ordinal_key_code_bug :
    fetch_resources twoDocParse oneFileEntries false =
      Except.ok [ACResource.from_dict "f.1" "f.1" "t" (YDoc.str "a"),
                 ACResource.from_dict "f.1" "f.1" "t" (YDoc.str "b")] ∧
    fetch_resources twoDocParse oneFileEntries false ≠
      Except.ok [ACResource.from_dict "f.1" "f.1" "t" (YDoc.str "a"),
                 ACResource.from_dict "f.2" "f.2" "t" (YDoc.str "b")] := by
  have hA : fetch_resources twoDocParse oneFileEntries false =
      Except.ok [ACResource.from_dict "f.1" "f.1" "t" (YDoc.str "a"),
                 ACResource.from_dict "f.1" "f.1" "t" (YDoc.str "b")] := rfl
  refine ⟨hA, ?_⟩
  intro h
  rw [hA] at h
  simp [ACResource.from_dict] at h

/-- C7: for a flat-mode directory whose regular files all parse, `fetch`
returns one resource per document, in file-enumeration order then
within-file document order; non-regular entries are skipped; colliding keys
are all kept (the result is exactly the concatenation of every file's
per-document resources, with no deduplication), and the total count is the
sum of the per-file document counts. -/
theorem c7_flat_fetch_count_order (parse : String → Option (List YDoc))
    (docs : FileEntry → List YDoc) (entries : List FileEntry)
    (h : ∀ e ∈ entries, e.isFile = true → parse e.content = some (docs e)) :
    fetch_resources parse entries false =
      Except.ok ((entries.filter (fun e => e.isFile)).flatMap
        (fun e => flatFileResources e (docs e))) ∧
    ((entries.filter (fun e => e.isFile)).flatMap
        (fun e => flatFileResources e (docs e))).length =
      ((entries.filter (fun e => e.isFile)).map (fun e => (docs e).length)).sum := by
  constructor
  · unfold fetch_resources
    rw [fetchFiles_flat parse docs entries h _ rfl rfl]
    simp only [Bind.bind, Except.bind]
    rfl
  · rw [List.length_flatMap]
    simp only [Function.comp_def, flatFileResources, List.length_map]

/-- Witness for C7 at a concrete directory: two regular files of two
documents each plus one non-file entry give exactly four resources in
file-then-document order. -/
theorem c7_flat_fetch_count_order_witness :
    (∀ e ∈ sampleEntries, e.isFile = true →
      twoDocParse e.content = some [YDoc.str "a", YDoc.str "b"]) ∧
    fetch_resources twoDocParse sampleEntries false =
      Except.ok [ACResource.from_dict "a.1" "a.1" "ca" (YDoc.str "a"),
                 ACResource.from_dict "a.1" "a.1" "ca" (YDoc.str "b"),
                 ACResource.from_dict "b.1" "b.1" "cb" (YDoc.str "a"),
                 ACResource.from_dict "b.1" "b.1" "cb" (YDoc.str "b")] := by
  refine ⟨fun e he hf => rfl, ?_⟩
  have h := c7_flat_fetch_count_order twoDocParse
    (fun _ => [YDoc.str "a", YDoc.str "b"]) sampleEntries (fun e he hf => rfl)
  rw [h.1]
  rfl

/-- C2: in Kubernetes mode, a `Service` document with a `metadata.name` and
the `getambassador.io/config` annotation yields one resource per YAML
document of the annotation, every one keyed `"<name>.<namespace>"` from the
enclosing Service, with the namespace defaulting to `"default"` when the
`metadata.namespace` field is absent. -/
theorem c2_k8s_annotation_resources_keyed_by_service
    (parse : String → Option (List YDoc))
    (fname content1 content2 n ns a : String) (ds : List YDoc)
    (hc1 : parse content1 = some [YDoc.map [("kind", .str "Service"),
        ("metadata", .map [("name", .str n), ("namespace", .str ns),
          ("annotations", .map [("getambassador.io/config", .str a)])])]])
    (hc2 : parse content2 = some [YDoc.map [("kind", .str "Service"),
        ("metadata", .map [("name", .str n),
          ("annotations", .map [("getambassador.io/config", .str a)])])]])
    (hp : parse a = some ds) (hn : n ≠ "") (ha : a ≠ "") :
    fetch_resources parse [⟨fname, true, content1⟩] true =
      Except.ok (ds.map fun d =>
        ACResource.from_dict (n ++ "." ++ ns) (n ++ "." ++ ns) a d) ∧
    fetch_resources parse [⟨fname, true, content2⟩] true =
      Except.ok (ds.map fun d =>
        ACResource.from_dict (n ++ "." ++ "default") (n ++ "." ++ "default") a d) := by
  have hnt : truthy (YDoc.str n) = true := by simpa [truthy] using hn
  constructor
  · have hex := extract_k8s_annotated parse content1 a fname
      [("kind", .str "Service"),
       ("metadata", .map [("name", .str n), ("namespace", .str ns),
         ("annotations", .map [("getambassador.io/config", .str a)])])]
      [("name", .str n), ("namespace", .str ns),
       ("annotations", .map [("getambassador.io/config", .str a)])]
      (.str n) (.str ns) ds
      { resources := [], filename := some fname, ocount := 1 }
      rfl rfl rfl rfl hnt rfl rfl ha hp rfl
    have hfetch := fetch_single_k8s parse fname content1 _ _ hc1 hex
    simpa [pyStr] using hfetch
  · have hex := extract_k8s_annotated parse content2 a fname
      [("kind", .str "Service"),
       ("metadata", .map [("name", .str n),
         ("annotations", .map [("getambassador.io/config", .str a)])])]
      [("name", .str n),
       ("annotations", .map [("getambassador.io/config", .str a)])]
      (.str n) (.str "default") ds
      { resources := [], filename := some fname, ocount := 1 }
      rfl rfl rfl rfl hnt rfl rfl ha hp rfl
    have hfetch := fetch_single_k8s parse fname content2 _ _ hc2 hex
    simpa [pyStr] using hfetch

/-- Witness for C2 at a concrete input: the Service `svc1` (namespace `ns1`,
or no namespace) with annotation `"ann"` holding two documents yields exactly
two resources, both keyed `svc1.ns1` (resp. `svc1.default`). -/
theorem c2_k8s_annotation_resources_keyed_by_service_witness :
    annParse "withns" = some [svcSample] ∧
    annParse "nons" = some [svcSampleNoNs] ∧
    annParse "ann" = some [annDoc1, annDoc2] ∧
    fetch_resources annParse [⟨"f", true, "withns"⟩] true =
      Except.ok [ACResource.from_dict "svc1.ns1" "svc1.ns1" "ann" annDoc1,
                 ACResource.from_dict "svc1.ns1" "svc1.ns1" "ann" annDoc2] ∧
    fetch_resources annParse [⟨"f", true, "nons"⟩] true =
      Except.ok [ACResource.from_dict "svc1.default" "svc1.default" "ann" annDoc1,
                 ACResource.from_dict "svc1.default" "svc1.default" "ann" annDoc2] := by
  have h := c2_k8s_annotation_resources_keyed_by_service annParse
    "f" "withns" "nons" "svc1" "ns1" "ann" [annDoc1, annDoc2]
    rfl rfl rfl (by decide) (by decide)
  exact ⟨rfl, rfl, rfl, h.1, h.2⟩

/-- C8: annotation expansion recurses exactly one level: the nested parse of
an annotation's string value is performed by `load_yaml` with `k8s = False`,
so the documents inside the annotation — whatever their shape, including
further Kubernetes `Service` objects — are appended as plain flat-style
resources keyed by the enclosing Service and are never inspected for further
annotation extraction; the fetch is a total function and terminates. -/
theorem c8_annotation_expansion_flat_one_level
    (parse : String → Option (List YDoc)) (ser n ns a fnm : String)
    (ds : List YDoc) (st : FetcherState)
    (hp : parse a = some ds) (hn : n ≠ "") (ha : a ≠ "")
    (hf : st.filename = some fnm) :
    extract_k8s parse ser
      (.map [("kind", .str "Service"),
        ("metadata", .map [("name", .str n), ("namespace", .str ns),
          ("annotations", .map [("getambassador.io/config", .str a)])])]) st =
      load_yaml parse a (some (n ++ "." ++ ns)) false
        { st with filename := some (fnm ++ ":annotation") } ∧
    load_yaml parse a (some (n ++ "." ++ ns)) false
        { st with filename := some (fnm ++ ":annotation") } =
      Except.ok { st with
        resources := st.resources ++ ds.map (fun d =>
          ACResource.from_dict (n ++ "." ++ ns) (n ++ "." ++ ns) a d),
        filename := some (fnm ++ ":annotation"),
        ocount := st.ocount + ds.length } := by
  have hnt : truthy (YDoc.str n) = true := by simpa [truthy] using hn
  have h2 : load_yaml parse a (some (n ++ "." ++ ns)) false
      { st with filename := some (fnm ++ ":annotation") } =
      Except.ok { st with
        resources := st.resources ++ ds.map (fun d =>
          ACResource.from_dict (n ++ "." ++ ns) (n ++ "." ++ ns) a d),
        filename := some (fnm ++ ":annotation"),
        ocount := st.ocount + ds.length } := by
    rw [load_yaml_k8s_false]
    simp only [load_yaml_flat, hp]
    rw [processFlat_truthy _ _ _ (dot_append_ne_empty _ _)]
    rfl
  have h1 := extract_k8s_annotated parse ser a fnm
    [("kind", .str "Service"),
     ("metadata", .map [("name", .str n), ("namespace", .str ns),
       ("annotations", .map [("getambassador.io/config", .str a)])])]
    [("name", .str n), ("namespace", .str ns),
     ("annotations", .map [("getambassador.io/config", .str a)])]
    (.str n) (.str ns) ds st
    rfl rfl rfl rfl hnt rfl rfl ha hp hf
  simp only [pyStr] at h1
  exact ⟨h1.trans h2.symm, h2⟩

/-- Witness for C8 at a concrete input: the annotation of `svc1.ns1` itself
contains a Kubernetes Service object; that inner object is appended verbatim
as one plainly-keyed resource and is not expanded further. -/
theorem c8_annotation_expansion_flat_one_level_witness :
    annSvcParse "ann" = some [svcSampleNoNs] ∧
    extract_k8s annSvcParse "src" svcSample
      { resources := [], filename := some "f", ocount := 1 } =
      load_yaml annSvcParse "ann" (some ("svc1" ++ "." ++ "ns1")) false
        { resources := [], filename := some ("f" ++ ":annotation"), ocount := 1 } ∧
    load_yaml annSvcParse "ann" (some ("svc1" ++ "." ++ "ns1")) false
      { resources := [], filename := some ("f" ++ ":annotation"), ocount := 1 } =
      Except.ok (FetcherState.mk
        [ACResource.from_dict "svc1.ns1" "svc1.ns1" "ann" svcSampleNoNs]
        (some "f:annotation") 2) := by
  have h := c8_annotation_expansion_flat_one_level annSvcParse
    "src" "svc1" "ns1" "ann" "f" [svcSampleNoNs]
    { resources := [], filename := some "f", ocount := 1 }
    rfl (by decide) (by decide) rfl
  exact ⟨rfl, h.1, h.2⟩

/-- C6: in Kubernetes mode a mapping document whose `kind` is not exactly
`"Service"`, or whose `metadata` is absent, or whose `metadata.name` is
absent, or whose `metadata.annotations` lacks the `getambassador.io/config`
key, contributes zero resources and raises no exception: `extract_k8s`
returns the state unchanged. -/
theorem c6_k8s_nonqualifying_docs_discarded
    (parse : String → Option (List YDoc)) (ser n0 : String)
    (m mm am : List (String × YDoc)) (st : FetcherState) :
    (yEqStr ((m.lookup "kind").getD .nil) "Service" = false →
      extract_k8s parse ser (.map m) st = Except.ok st) ∧
    (m.lookup "kind" = some (.str "Service") → m.lookup "metadata" = none →
      extract_k8s parse ser (.map m) st = Except.ok st) ∧
    (m.lookup "kind" = some (.str "Service") →
      m.lookup "metadata" = some (.map mm) → mm.isEmpty = false →
      mm.lookup "name" = none →
      extract_k8s parse ser (.map m) st = Except.ok st) ∧
    (m.lookup "kind" = some (.str "Service") →
      m.lookup "metadata" = some (.map mm) → mm.isEmpty = false →
      mm.lookup "name" = some (.str n0) → n0 ≠ "" →
      mm.lookup "annotations" = none →
      extract_k8s parse ser (.map m) st = Except.ok st) ∧
    (m.lookup "kind" = some (.str "Service") →
      m.lookup "metadata" = some (.map mm) → mm.isEmpty = false →
      mm.lookup "name" = some (.str n0) → n0 ≠ "" →
      mm.lookup "annotations" = some (.map am) →
      am.lookup "getambassador.io/config" = none →
      extract_k8s parse ser (.map m) st = Except.ok st) := by
  refine ⟨?_, ?_, ?_, ?_, ?_⟩
  · intro hknd
    simp [extract_k8s, pyGet, hknd, Bind.bind, Except.bind, Pure.pure, Except.pure]
  · intro hk hm
    simp [extract_k8s, pyGet, hk, hm, yEqStr, truthy,
      Bind.bind, Except.bind, Pure.pure, Except.pure]
  · intro hk hm hmm hname
    simp [extract_k8s, pyGet, hk, hm, hmm, hname, yEqStr, truthy,
      Bind.bind, Except.bind, Pure.pure, Except.pure]
  · intro hk hm hmm hname hn0 hann
    have hb : (n0 != "") = true := by simpa using hn0
    simp [extract_k8s, pyGet, hk, hm, hmm, hname, hann, hb, yEqStr, truthy,
      Bind.bind, Except.bind, Pure.pure, Except.pure]
  · intro hk hm hmm hname hn0 hann hcfg
    have hb : (n0 != "") = true := by simpa using hn0
    cases am with
    | nil =>
      simp [extract_k8s, pyGet, hk, hm, hmm, hname, hann, hb, yEqStr, truthy,
        Bind.bind, Except.bind, Pure.pure, Except.pure]
    | cons hd tl =>
      simp [extract_k8s, pyGet, hk, hm, hmm, hname, hann, hcfg, hb, yEqStr, truthy,
        Bind.bind, Except.bind, Pure.pure, Except.pure]

/-- Witness for C6 at concrete documents: a `ConfigMap`, a Service without
metadata, a Service with empty-of-name metadata, a named Service without
annotations, and a named Service whose annotations lack the configuration
key each leave the fetcher state unchanged. -/
theorem c6_k8s_nonqualifying_docs_discarded_witness :
    extract_k8s twoDocParse "s" (.map [("kind", .str "ConfigMap")])
      ⟨[], some "f", 1⟩ = Except.ok ⟨[], some "f", 1⟩ ∧
    extract_k8s twoDocParse "s" (.map [("kind", .str "Service")])
      ⟨[], some "f", 1⟩ = Except.ok ⟨[], some "f", 1⟩ ∧
    extract_k8s twoDocParse "s"
      (.map [("kind", .str "Service"), ("metadata", .map [("labels", .str "x")])])
      ⟨[], some "f", 1⟩ = Except.ok ⟨[], some "f", 1⟩ ∧
    extract_k8s twoDocParse "s"
      (.map [("kind", .str "Service"), ("metadata", .map [("name", .str "svc1")])])
      ⟨[], some "f", 1⟩ = Except.ok ⟨[], some "f", 1⟩ ∧
    extract_k8s twoDocParse "s"
      (.map [("kind", .str "Service"),
        ("metadata", .map [("name", .str "svc1"),
          ("annotations", .map [("other", .str "v")])])])
      ⟨[], some "f", 1⟩ = Except.ok ⟨[], some "f", 1⟩ := by
  refine ⟨?_, ?_, ?_, ?_, ?_⟩
  · exact (c6_k8s_nonqualifying_docs_discarded twoDocParse "s" ""
      [("kind", .str "ConfigMap")] [] [] ⟨[], some "f", 1⟩).1 rfl
  · exact (c6_k8s_nonqualifying_docs_discarded twoDocParse "s" ""
      [("kind", .str "Service")] [] [] ⟨[], some "f", 1⟩).2.1 rfl rfl
  · exact (c6_k8s_nonqualifying_docs_discarded twoDocParse "s" ""
      [("kind", .str "Service"), ("metadata", .map [("labels", .str "x")])]
      [("labels", .str "x")] [] ⟨[], some "f", 1⟩).2.2.1 rfl rfl rfl rfl
  · exact (c6_k8s_nonqualifying_docs_discarded twoDocParse "s" "svc1"
      [("kind", .str "Service"), ("metadata", .map [("name", .str "svc1")])]
      [("name", .str "svc1")] [] ⟨[], some "f", 1⟩).2.2.2.1
      rfl rfl rfl rfl (by decide) rfl
  · exact (c6_k8s_nonqualifying_docs_discarded twoDocParse "s" "svc1"
      [("kind", .str "Service"),
       ("metadata", .map [("name", .str "svc1"),
         ("annotations", .map [("other", .str "v")])])]
      [("name", .str "svc1"), ("annotations", .map [("other", .str "v")])]
      [("other", .str "v")] ⟨[], some "f", 1⟩).2.2.2.2
      rfl rfl rfl rfl (by decide) rfl rfl

/-- C10: in Kubernetes mode a document that parses to a non-mapping value
(such as the empty document, which parses to `None`) is not silently
discarded: `extract_k8s` performs a `.get` on it and raises
`AttributeError`, and a `config` run over a directory containing such a
document exits fatally with status 1. -/
theorem c10_k8s_nonmapping_document_raises
    (parse : String → Option (List YDoc)) (ser s0 : String) (i0 : Int)
    (b0 : Bool) (l0 : List YDoc) (st : FetcherState)
    (eoe : Bool) (da di : Option String) (probe : ProbeResult)
    (collab : Collab) (o : String) :
    extract_k8s parse ser YDoc.nil st = Except.error PyErr.attributeError ∧
    extract_k8s parse ser (YDoc.str s0) st = Except.error PyErr.attributeError ∧
    extract_k8s parse ser (YDoc.num i0) st = Except.error PyErr.attributeError ∧
    extract_k8s parse ser (YDoc.bool b0) st = Except.error PyErr.attributeError ∧
    extract_k8s parse ser (YDoc.seq l0) st = Except.error PyErr.attributeError ∧
    (config_run false true eoe da di probe nilDocParse oneFileEntries collab o).exitCode
      = 1 ∧
    (config_run false true eoe da di probe nilDocParse oneFileEntries collab o).fatalMsg
      = some "AttributeError" := by
  exact ⟨rfl, rfl, rfl, rfl, rfl, rfl, rfl⟩

/-! ## Claim theorems: the config command -/

/-- C4: in check mode, when the output file exists, is readable and parses
as JSON, `config` performs no file writes and makes no calls into the
fetcher, validation, IR or wire-format stages: the whole command is a no-op
beyond the freshness probe. -/
theorem c4_check_fresh_noop (k8s eoe : Bool) (da di : Option String)
    (parse : String → Option (List YDoc)) (entries : List FileEntry)
    (collab : Collab) (o : String) :
    config_run true k8s eoe da di ProbeResult.ok parse entries collab o =
      { exitCode := 0, writes := [], stages := [], fatalMsg := none } := rfl

theorem config_run_regen_fetchS (k8s eoe : Bool) (da di : Option String)
    (probe : ProbeResult) (parse : String → Option (List YDoc))
    (entries : List FileEntry) (collab : Collab) (o : String) :
    Stage.fetchS ∈ (config_run false k8s eoe da di probe parse entries collab o).stages := by
  unfold config_run
  cases hres : fetch_resources parse entries k8s with
  | error e => simp
  | ok rs =>
    by_cases hc : (eoe && !(collab.errors rs).isEmpty) = true
    · simp [hc]
    · simp [hc]

/-- C5 (amended): in check mode a freshness-probe failure raised as one of
the three caught exception classes — `FileNotFoundError` (output absent),
`OSError` (unreadable), or `json.decoder.JSONDecodeError` (present but not
valid JSON) — is treated as stale: the run is identical to a run without the
existence short-circuit (full regeneration, starting with the fetch) and the
probe failure itself never becomes an error or a fatal exit; but a probe
failure outside those classes (the `UnicodeDecodeError` raised by reading a
present non-UTF-8 output file) escapes the check block and is surfaced as a
fatal exit with status 1, with no regeneration. -/
theorem c5_probe_failures_treated_stale (k8s eoe : Bool) (da di : Option String)
    (parse : String → Option (List YDoc)) (entries : List FileEntry)
    (collab : Collab) (o : String) :
    (config_run true k8s eoe da di ProbeResult.fileNotFound parse entries collab o =
      config_run false k8s eoe da di ProbeResult.fileNotFound parse entries collab o) ∧
    (config_run true k8s eoe da di ProbeResult.osError parse entries collab o =
      config_run false k8s eoe da di ProbeResult.osError parse entries collab o) ∧
    (config_run true k8s eoe da di ProbeResult.jsonDecodeError parse entries collab o =
      config_run false k8s eoe da di ProbeResult.jsonDecodeError parse entries collab o) ∧
    Stage.fetchS ∈ (config_run true k8s eoe da di ProbeResult.fileNotFound
      parse entries collab o).stages ∧
    Stage.fetchS ∈ (config_run true k8s eoe da di ProbeResult.osError
      parse entries collab o).stages ∧
    Stage.fetchS ∈ (config_run true k8s eoe da di ProbeResult.jsonDecodeError
      parse entries collab o).stages ∧
    (config_run true k8s eoe da di ProbeResult.unicodeDecodeError parse entries collab o =
      { exitCode := 1, writes := [], stages := [], fatalMsg := some "UnicodeDecodeError" }) := by
  exact ⟨rfl, rfl, rfl,
    config_run_regen_fetchS k8s eoe da di ProbeResult.fileNotFound parse entries collab o,
    config_run_regen_fetchS k8s eoe da di ProbeResult.osError parse entries collab o,
    config_run_regen_fetchS k8s eoe da di ProbeResult.jsonDecodeError parse entries collab o,
    rfl⟩

/-- Counterexample to C5 as stated: a present output file whose bytes are
not valid UTF-8 makes the probe raise `UnicodeDecodeError`, which none of
the three `except` clauses catches; the check-mode run exits fatally with
status 1 and performs no regeneration (the fetch is never invoked), so this
probe failure is surfaced to the user, contradicting "never surfaced as an
error or fatal exit". -/
theorem c5_uncaught_probe_exception_counterexample :
    (config_run true false false none none ProbeResult.unicodeDecodeError
      twoDocParse oneFileEntries collabOkBehaviour "out").exitCode = 1 ∧
    (config_run true false false none none ProbeResult.unicodeDecodeError
      twoDocParse oneFileEntries collabOkBehaviour "out").fatalMsg =
      some "UnicodeDecodeError" ∧
    Stage.fetchS ∉ (config_run true false false none none ProbeResult.unicodeDecodeError
      twoDocParse oneFileEntries collabOkBehaviour "out").stages := by
  refine ⟨rfl, rfl, ?_⟩
  intro h
  simp [config_run, ProbeResult.uncaught] at h

theorem config_run_false_v1 (k8s eoe : Bool) (da di : Option String)
    (probe : ProbeResult) (parse : String → Option (List YDoc))
    (entries : List FileEntry) (collab : Collab) (o : String)
    (h : Stage.v1S ∈ (config_run false k8s eoe da di probe parse entries collab o).stages) :
    ∃ rs, fetch_resources parse entries k8s = Except.ok rs ∧
      (o, collab.v1_json rs ++ "\n") ∈
        (config_run false k8s eoe da di probe parse entries collab o).writes := by
  simp only [config_run] at h ⊢
  cases hres : fetch_resources parse entries k8s with
  | error e =>
    rw [hres] at h
    simp at h
  | ok rs =>
    rw [hres] at h
    by_cases hc : (eoe && !(collab.errors rs).isEmpty) = true
    · simp [hc] at h
    · have hc' : (eoe && !(collab.errors rs).isEmpty) = false := by simpa using hc
      refine ⟨rs, rfl, ?_⟩
      simp [hc', RichStatus.truthy]

/-- C9: in the regeneration path of `config`, the `RichStatus` guarding the
final write is first set to an error and then unconditionally overwritten
with `OK` after the wire-format artifact is built, so the branch skipping
the write is unreachable: whenever a run invokes the wire-format stage, the
output file at the main output path is written. -/
theorem c9_regenerate_always_writes (check k8s eoe : Bool) (da di : Option String)
    (probe : ProbeResult) (parse : String → Option (List YDoc))
    (entries : List FileEntry) (collab : Collab) (o : String)
    (h : Stage.v1S ∈ (config_run check k8s eoe da di probe parse entries collab o).stages) :
    ∃ rs, fetch_resources parse entries k8s = Except.ok rs ∧
      (o, collab.v1_json rs ++ "\n") ∈
        (config_run check k8s eoe da di probe parse entries collab o).writes := by
  cases check with
  | false => exact config_run_false_v1 k8s eoe da di probe parse entries collab o h
  | true =>
    cases probe with
    | ok => simp [config_run, ProbeResult.uncaught] at h
    | fileNotFound =>
      exact config_run_false_v1 k8s eoe da di ProbeResult.fileNotFound parse entries collab o h
    | osError =>
      exact config_run_false_v1 k8s eoe da di ProbeResult.osError parse entries collab o h
    | jsonDecodeError =>
      exact config_run_false_v1 k8s eoe da di ProbeResult.jsonDecodeError parse entries collab o h
    | unicodeDecodeError => simp [config_run, ProbeResult.uncaught] at h

/-- Witness for C9 at a concrete run: a regeneration that reaches the
wire-format stage writes the output file. -/
theorem c9_regenerate_always_writes_witness :
    Stage.v1S ∈ (config_run false false false none none ProbeResult.ok
      twoDocParse oneFileEntries collabOkBehaviour "out").stages ∧
    ∃ rs, fetch_resources twoDocParse oneFileEntries false = Except.ok rs ∧
      ("out", collabOkBehaviour.v1_json rs ++ "\n") ∈
        (config_run false false false none none ProbeResult.ok
          twoDocParse oneFileEntries collabOkBehaviour "out").writes := by
  refine ⟨by decide, ?_⟩
  exact c9_regenerate_always_writes false false false none none ProbeResult.ok
    twoDocParse oneFileEntries collabOkBehaviour "out" (by decide)

/-- C3: when `exit_on_error` is set and the validated-config error ledger is
non-empty, `config` aborts with exit status 1 and a fatal message listing
every resource key that has at least one recorded error, and the wire-format
output file is not written; with `exit_on_error` unset the same inputs still
produce the wire-format output file despite the recorded errors. -/
theorem c3_exit_on_validation_errors (k8s : Bool) (da di : Option String)
    (probe : ProbeResult) (parse : String → Option (List YDoc))
    (entries : List FileEntry) (collab : Collab) (o : String)
    (rs : List ACResource)
    (hf : fetch_resources parse entries k8s = Except.ok rs)
    (he : collab.errors rs ≠ [])
    (hinv : ∀ kv ∈ collab.errors rs, kv.2 ≠ [])
    (hda : da ≠ some o) :
    (config_run false k8s true da di probe parse entries collab o).exitCode = 1 ∧
    (config_run false k8s true da di probe parse entries collab o).fatalMsg =
      some ("errors in: " ++ String.intercalate ", "
        ((collab.errors rs).map Prod.fst)) ∧
    (∀ k, k ∈ (collab.errors rs).map Prod.fst ↔
      ∃ msgs, (k, msgs) ∈ collab.errors rs ∧ msgs ≠ []) ∧
    (∀ c, (o, c) ∉ (config_run false k8s true da di probe parse entries collab o).writes) ∧
    (config_run false k8s false da di probe parse entries collab o).exitCode = 0 ∧
    (o, collab.v1_json rs ++ "\n") ∈
      (config_run false k8s false da di probe parse entries collab o).writes := by
  have he' : (collab.errors rs).isEmpty = false := by
    cases hE : collab.errors rs with
    | nil => exact absurd hE he
    | cons a l => rfl
  refine ⟨?_, ?_, ?_, ?_, ?_, ?_⟩
  · simp [config_run, hf, he']
  · simp [config_run, hf, he']
  · intro k
    constructor
    · intro hk
      rcases List.mem_map.mp hk with ⟨kv, hkv, hfst⟩
      refine ⟨kv.2, ?_, hinv kv hkv⟩
      have hkv' : (k, kv.2) = kv := by
        rw [← hfst]
      rw [hkv']
      exact hkv
    · rintro ⟨msgs, hmem, -⟩
      exact List.mem_map.mpr ⟨(k, msgs), hmem, rfl⟩
  · intro c
    cases da with
    | none => simp [config_run, hf, he']
    | some pa =>
      have hpa : o ≠ pa := fun hpo => hda (by rw [hpo])
      simp [config_run, hf, he', hpa]
  · simp [config_run, hf]
  · simp [config_run, hf, RichStatus.truthy]

/-- Witness for C3 at a concrete run: a ledger recording errors for keys
`k1` and `k2` aborts the run (status 1, message listing both keys, no output
write) when `exit_on_error` is set, and with it unset the same run exits 0
and writes the wire format to `out`. -/
theorem c3_exit_on_validation_errors_witness :
    fetch_resources twoDocParse oneFileEntries false =
      Except.ok [ACResource.from_dict "f.1" "f.1" "t" (YDoc.str "a"),
                 ACResource.from_dict "f.1" "f.1" "t" (YDoc.str "b")] ∧
    (config_run false false true none none ProbeResult.ok twoDocParse
      oneFileEntries collabErrBehaviour "out").exitCode = 1 ∧
    (config_run false false true none none ProbeResult.ok twoDocParse
      oneFileEntries collabErrBehaviour "out").fatalMsg =
      some "errors in: k1, k2" ∧
    (∀ c, ("out", c) ∉ (config_run false false true none none ProbeResult.ok
      twoDocParse oneFileEntries collabErrBehaviour "out").writes) ∧
    (config_run false false false none none ProbeResult.ok twoDocParse
      oneFileEntries collabErrBehaviour "out").exitCode = 0 ∧
    ("out", "V1\n") ∈ (config_run false false false none none ProbeResult.ok
      twoDocParse oneFileEntries collabErrBehaviour "out").writes := by
  have h := c3_exit_on_validation_errors false none none ProbeResult.ok
    twoDocParse oneFileEntries collabErrBehaviour "out"
    [ACResource.from_dict "f.1" "f.1" "t" (YDoc.str "a"),
     ACResource.from_dict "f.1" "f.1" "t" (YDoc.str "b")]
    rfl (by decide) (by decide) (by decide)
  exact ⟨rfl, h.1, h.2.1, h.2.2.2.1, h.2.2.2.2.1, h.2.2.2.2.2⟩
